import Mathlib

/-!
Verification of the fam-backend REST handlers (src/index.js and the two
services in src/unnamed/part_000) against the natural-language specification.

The JavaScript request/response handlers are shallowly embedded as pure Lean
functions.  Request bodies are records of `JsVal` (the JSON values a body
field can hold, with `undef` marking an absent field); the document store is
an explicit list of stored documents threaded through each handler; a handler
returns its HTTP status code, the document carried in the response body (when
any), and the updated store.  Library behaviour that the handlers rely on
(JS truthiness, `parseFloat`, Mongoose casts, required-field and enum
validation, `ObjectId.isValid`, query sorting) is modelled alongside, at the
level of the scalar values the handlers actually receive.
-/

namespace FamBackend

/-- JSON-ish values a request-body field can hold.  `undef` marks a field that
is absent from the body (JavaScript `undefined`). -/
inductive JsVal where
  | undef : JsVal
  | null : JsVal
  | num : ℚ → JsVal
  | str : String → JsVal
  | arr : List JsVal → JsVal

/-- JavaScript truthiness, as used by the handlers' `if (!field)` checks:
`undefined`, `null`, `0` and `""` are falsy; arrays (even empty) are truthy. -/
def truthy : JsVal → Bool
  | JsVal.undef => false
  | JsVal.null => false
  | JsVal.num q => if q = 0 then false else true
  | JsVal.str s => if s = "" then false else true
  | JsVal.arr _ => true

/-- JavaScript strict equality of a body value against a configured string
(`username === process.env.ADMIN_USERNAME` etc.): only a string of equal
contents compares equal. -/
def jsEqStr (v : JsVal) (s : String) : Bool :=
  match v with
  | JsVal.str t => t == s
  | _ => false

/-- Accumulate a run of decimal digits: returns the value read, how many
digits were consumed, and the rest of the input. -/
def takeDigits : ℕ → ℕ → List Char → ℕ × ℕ × List Char
  | acc, n, [] => (acc, n, [])
  | acc, n, c :: cs =>
    if c.isDigit then takeDigits (10 * acc + (c.toNat - 48)) (n + 1) cs
    else (acc, n, c :: cs)

/-- Read an optional leading sign; returns whether the number is negated. -/
def takeSign : List Char → Bool × List Char
  | '-' :: cs => (true, cs)
  | '+' :: cs => (false, cs)
  | cs => (false, cs)

/-- Modelled from JS `parseFloat` on a character stream: skip leading
whitespace, optional sign, integer digits, optional fraction, optional
exponent; `none` is NaN (no digits could be read).  Returns the value and the
unconsumed tail.  The value is assembled as a single `mkRat` over natural
arithmetic.  Hexadecimal and `Infinity` forms are outside the model. -/
def parseFloatCore (cs0 : List Char) : Option (ℚ × List Char) :=
  let cs1 := cs0.dropWhile fun c => c = ' ' || c = '\t' || c = '\n' || c = '\r'
  let sign := takeSign cs1
  let ipart := takeDigits 0 0 sign.2
  let fpart :=
    match ipart.2.2 with
    | '.' :: rest => takeDigits 0 0 rest
    | _ => (0, 0, ipart.2.2)
  if ipart.2.1 + fpart.2.1 = 0 then none
  else
    let mantissa : ℕ := ipart.1 * 10 ^ fpart.2.1 + fpart.1
    let expPart : (Bool × ℕ × ℕ) × List Char :=
      match fpart.2.2 with
      | 'e' :: rest =>
        let esign := takeSign rest
        let ep := takeDigits 0 0 esign.2
        if ep.2.1 = 0 then ((false, 0, 0), fpart.2.2)
        else ((esign.1, ep.1, ep.2.1), ep.2.2)
      | 'E' :: rest =>
        let esign := takeSign rest
        let ep := takeDigits 0 0 esign.2
        if ep.2.1 = 0 then ((false, 0, 0), fpart.2.2)
        else ((esign.1, ep.1, ep.2.1), ep.2.2)
      | _ => ((false, 0, 0), fpart.2.2)
    let tenUp : ℕ := if expPart.1.1 then 0 else expPart.1.2.1
    let tenDown : ℕ := fpart.2.1 + (if expPart.1.1 then expPart.1.2.1 else 0)
    let signedNum : ℤ :=
      if sign.1 then -((mantissa * 10 ^ tenUp : ℕ) : ℤ)
      else ((mantissa * 10 ^ tenUp : ℕ) : ℤ)
    some (mkRat signedNum (10 ^ tenDown), expPart.2)

/-- Modelled from JS `parseFloat(value)` as the handlers call it on body
fields: numbers pass through, strings are parsed by their longest numeric
prefix, anything else stringifies to a non-numeric text and yields NaN
(`none`).  Arrays are not modelled beyond that. -/
def jsParseFloat : JsVal → Option ℚ
  | JsVal.num q => some q
  | JsVal.str s => (parseFloatCore s.data).map Prod.fst
  | _ => none

/-- Number of times `p` divides `n`, computed with `n` as fuel (0 when `n` is
0 or `p ≤ 1`). -/
def countFactorAux (p : ℕ) : ℕ → ℕ → ℕ
  | 0, _ => 0
  | _ + 1, 0 => 0
  | fuel + 1, n + 1 =>
    if p ≤ 1 then 0
    else if (n + 1) % p = 0 then countFactorAux p fuel ((n + 1) / p) + 1
    else 0

/-- Number of times `p` divides `n`. -/
def countFactor (p n : ℕ) : ℕ := countFactorAux p n n

/-- JS number-to-string (`(5.5).toString() = "5.5"`): integers print plainly,
values with a terminating decimal expansion print as decimals (the value of a
JS number is always dyadic, so its expansion terminates); the fraction
fallback merely keeps the function total. -/
def ratToString (q : ℚ) : String :=
  if q.den = 1 then toString q.num
  else
    let k2 := countFactor 2 q.den
    let k5 := countFactor 5 q.den
    let k := max k2 k5
    if q.den = 2 ^ k2 * 5 ^ k5 then
      let scaled := q.num.natAbs * (10 ^ k / q.den)
      let s := toString scaled
      let s := if s.length < k + 1 then
          String.mk (List.replicate (k + 1 - s.length) '0') ++ s
        else s
      (if q.num < 0 then "-" else "")
        ++ String.mk (s.data.take (s.length - k)) ++ "."
        ++ String.mk (s.data.drop (s.length - k))
    else
      (if q.num < 0 then "-" else "")
        ++ toString q.num.natAbs ++ "/" ++ toString q.den

/-- Modelled from the Mongoose `String` cast (lib/cast/string.js): strings
pass through, every number stringifies via its `toString`, while arrays are
explicitly excluded (`CastError`) and `undefined`/`null` never produce a
stored string (absent value / `required` rejection; writing a literal null
through a validator-free string path is outside the model — no theorem
quantifies over it). -/
def castString : JsVal → Option String
  | JsVal.str s => some s
  | JsVal.num q => some (ratToString q)
  | _ => none

/-- Mongoose `String` cast combined with the `required: true` validator,
which for string paths additionally rejects the empty string. -/
def castReqString (v : JsVal) : Option String :=
  match castString v with
  | some s => if s = "" then none else some s
  | none => none

/-- JS `String.prototype.trim`: strip whitespace from both ends. -/
def jsTrim (s : String) : String :=
  String.mk
    (((s.data.dropWhile Char.isWhitespace).reverse.dropWhile
        Char.isWhitespace).reverse)

/-- Value of a digit character under the given radix (hex letters allowed up
to the radix). -/
def digitValUpTo (radix : ℕ) (c : Char) : Option ℕ :=
  let v :=
    if c.isDigit then some (c.toNat - 48)
    else if 'a' ≤ c ∧ c ≤ 'f' then some (c.toNat - 87)
    else if 'A' ≤ c ∧ c ≤ 'F' then some (c.toNat - 55)
    else none
  match v with
  | some d => if d < radix then some d else none
  | none => none

/-- Read a whole digit string under the given radix; any bad character makes
the whole string unreadable (NaN). -/
def parseDigitsRadix (radix : ℕ) : ℕ → List Char → Option ℕ
  | acc, [] => some acc
  | acc, c :: cs =>
    match digitValUpTo radix c with
    | some d => parseDigitsRadix radix (radix * acc + d) cs
    | none => none

/-- JS `Number()` radix-prefixed literals: `0x`/`0X` hexadecimal, `0b`/`0B`
binary, `0o`/`0O` octal. -/
def parseRadixPrefix (cs : List Char) : Option ℕ :=
  match cs with
  | '0' :: c :: rest =>
    if c = 'x' ∨ c = 'X' then
      match rest with
      | [] => none
      | _ => parseDigitsRadix 16 0 rest
    else if c = 'b' ∨ c = 'B' then
      match rest with
      | [] => none
      | _ => parseDigitsRadix 2 0 rest
    else if c = 'o' ∨ c = 'O' then
      match rest with
      | [] => none
      | _ => parseDigitsRadix 8 0 rest
    else none
  | _ => none

/-- Modelled from the Mongoose `Number` cast (lib/cast/number.js): `none` is
a `CastError`, `some none` is a stored null (a null input, or the empty
string, which the cast special-cases to null), `some (some q)` a stored
finite value.  Other strings go through JS `Number()`: whitespace-only is 0,
radix-prefixed and full decimal literals parse, anything else is NaN, which
the cast rejects (`assert.ok(!isNaN(val))`).  Arrays are rejected.  Non-finite
results ("Infinity") are outside the model, as is `undefined`, which the
callers handle before casting (an absent field is never cast). -/
def castNumberM : JsVal → Option (Option ℚ)
  | JsVal.num q => some (some q)
  | JsVal.null => some none
  | JsVal.str s =>
    if s = "" then some none
    else
      let t := jsTrim s
      if t = "" then some (some 0)
      else
        match parseRadixPrefix t.data with
        | some n => some (some (n : ℚ))
        | none =>
          match parseFloatCore t.data with
          | some (v, []) => some (some v)
          | _ => none
  | _ => none

/-- The Mongoose Number cast on a `required` path: only a finite value lets
the save succeed — null (from the empty string or a null input) fails the
`required` validator and a `CastError` fails the save outright. -/
def castReqNumber (v : JsVal) : Option ℚ :=
  match castNumberM v with
  | some (some q) => some q
  | _ => none

/-- Modelled from Mongoose `[String]` casting: an array casts elementwise, a
scalar casts to a singleton list. -/
def castStringList : JsVal → Option (List String)
  | JsVal.arr xs => xs.mapM castString
  | JsVal.str s => some [s]
  | JsVal.num q => (castString (JsVal.num q)).map fun s => [s]
  | _ => none

/-- Hexadecimal digit test, for ObjectId validity. -/
def isHexChar (c : Char) : Bool :=
  c.isDigit || ('a' ≤ c && c ≤ 'f') || ('A' ≤ c && c ≤ 'F')

/-- Modelled from `mongoose.Types.ObjectId.isValid`: a 24-character
hexadecimal string, or any 12-character string (12-byte buffer form). -/
def isValidObjectId (s : String) : Bool :=
  (s.length == 24 && s.data.all isHexChar) || s.length == 12

/-- Newest-first ordering on documents keyed by creation time: `a` precedes
`b` when `a` was created no earlier than `b`.  This is the order produced by
the handlers' `.sort(createdAt: -1)` store queries. -/
def newestFirst {α : Type} (key : α → ℕ) (a b : α) : Prop :=
  key b ≤ key a

instance {α : Type} (key : α → ℕ) : DecidableRel (newestFirst key) :=
  fun _ _ => Nat.decLe _ _

instance {α : Type} (key : α → ℕ) : IsTotal α (newestFirst key) :=
  ⟨fun a b => Nat.le_total (key b) (key a)⟩

instance {α : Type} (key : α → ℕ) : IsTrans α (newestFirst key) :=
  ⟨fun _ _ _ h1 h2 => Nat.le_trans h2 h1⟩

/-- The store's `createdAt: -1` sort, modelled as an insertion sort by the
newest-first order. -/
def sortNewest {α : Type} (key : α → ℕ) (l : List α) : List α :=
  List.insertionSort (newestFirst key) l

theorem sortNewest_perm {α : Type} (key : α → ℕ) (l : List α) :
    List.Perm (sortNewest key l) l :=
  List.perm_insertionSort _ l

theorem sortNewest_sorted {α : Type} (key : α → ℕ) (l : List α) :
    List.Sorted (newestFirst key) (sortNewest key l) :=
  List.sorted_insertionSort _ l

/-- Replace the first element satisfying `p` (Mongoose `findByIdAndUpdate`
touches a single document). -/
def updateFirst {α : Type} (p : α → Bool) (f : α → α) : List α → List α
  | [] => []
  | x :: xs => if p x then f x :: xs else x :: updateFirst p f xs

/-- The allowed `category` values of the Product schema. -/
def productCategories : List String :=
  ["sports", "retro", "home-kit", "player-edition", "football-boots", "none"]

/-- A Product document as stored (src/index.js productSchema).  `price` and
`discount` hold finite numbers: the Mongoose Number cast rejects NaN
(`assert.ok(!isNaN(val))`), so a `parseFloat` result only reaches the store
when it is an actual number.  `createdAt` is the server-assigned creation
instant. -/
structure StoredProduct where
  id : String
  name : String
  model : String
  price : ℚ
  discount : ℚ
  image : String
  description : String
  category : String
  createdAt : ℕ
deriving DecidableEq

/-- The fields `POST /products` destructures from `req.body`. -/
structure ProductBody where
  name : JsVal
  model : JsVal
  price : JsVal
  description : JsVal
  discount : JsVal
  image : JsVal
  category : JsVal

/-- Building and saving the new Product document: Mongoose casts the string
paths (required, hence non-empty), checks the `category` enum, and casts the
handler-computed `parseFloat` results for `price` and `discount` — a NaN
parse (e.g. price "abc") fails the Number cast.  `none` is a failed save
(`ValidationError`/`CastError`), which the handler maps to a 500 response. -/
def saveProduct (b : ProductBody) (newId : String) (now : ℕ) :
    Option StoredProduct := do
  let nm ← castReqString b.name
  let md ← castReqString b.model
  let ds ← castReqString b.description
  let im ← castReqString b.image
  let ct ← castReqString b.category
  let pr ← jsParseFloat b.price
  let dc ← if truthy b.discount then jsParseFloat b.discount else some 0
  if ct ∈ productCategories then
    some { id := newId, name := nm, model := md, price := pr, discount := dc,
           image := im, description := ds, category := ct, createdAt := now }
  else none

/-- `POST /products` (src/index.js lines 126-150): truthiness check on the six
required fields, else 400; then save, answering 201 with the saved document
or 500 on a store failure.  Result: ((status, document in the response body),
updated store). -/
def postProducts (b : ProductBody) (store : List StoredProduct)
    (newId : String) (now : ℕ) :
    (ℕ × Option StoredProduct) × List StoredProduct :=
  if truthy b.name && truthy b.model && truthy b.price && truthy b.description
      && truthy b.image && truthy b.category then
    match saveProduct b newId now with
    | some doc => ((201, some doc), store ++ [doc])
    | none => ((500, none), store)
  else ((400, none), store)

/-- A request body with every required Product field present, whose `price`
is the JSON number 0. -/
def priceZeroBody : ProductBody :=
  { name := JsVal.str "Jersey", model := JsVal.str "M1",
    price := JsVal.num 0, description := JsVal.str "home kit",
    discount := JsVal.undef, image := JsVal.str "img.png",
    category := JsVal.str "sports" }

/-- C1, counterexample: a `POST /products` body in which every required field
is present and `price` is the JSON number 0 is answered 400 with nothing
persisted — not 201 as the claim states — because the handler's `!price`
truthiness check treats 0 as missing. -/
theorem c1_price_zero_rejected :
    postProducts priceZeroBody [] "a1" 0 = ((400, none), []) := by
  decide

/-- C1, amended: when every required field of `POST /products` is present and
truthy (price 0 submitted as a JSON number is instead rejected with 400), the
string fields cast to non-empty strings, the category is in the schema enum
and the submitted price — and discount, when present — parses to an actual
number (a NaN parse such as price "abc" instead fails the store's Number
cast), the handler answers 201 with the created document appended to the
store; the document's `price` is the floating-point parse of the submitted
price and its `discount` is the parse of the submitted discount, or 0 when
the discount is absent (falsy). -/
theorem c1_create_product_amended (b : ProductBody)
    (store : List StoredProduct) (newId : String) (now : ℕ)
    (nm md ds im ct : String) (pr dc : ℚ)
    (h1 : truthy b.name = true) (h2 : truthy b.model = true)
    (h3 : truthy b.price = true) (h4 : truthy b.description = true)
    (h5 : truthy b.image = true) (h6 : truthy b.category = true)
    (hn : castReqString b.name = some nm)
    (hm : castReqString b.model = some md)
    (hd : castReqString b.description = some ds)
    (hi : castReqString b.image = some im)
    (hc : castReqString b.category = some ct)
    (hcat : ct ∈ productCategories)
    (hpr : jsParseFloat b.price = some pr)
    (hdc : (if truthy b.discount then jsParseFloat b.discount else some 0)
      = some dc) :
    postProducts b store newId now =
      ((201, some
        { id := newId, name := nm, model := md, price := pr, discount := dc,
          image := im, description := ds, category := ct, createdAt := now }),
       store ++
        [{ id := newId, name := nm, model := md, price := pr, discount := dc,
           image := im, description := ds, category := ct, createdAt := now }]) := by
  by_cases hbd : truthy b.discount = true
  · rw [if_pos hbd] at hdc
    simp [postProducts, saveProduct, h1, h2, h3, h4, h5, h6, hn, hm, hd, hi,
      hc, hcat, hpr, hbd, hdc]
  · rw [if_neg hbd] at hdc
    have hdc0 : dc = 0 := by simpa using hdc.symm
    subst hdc0
    simp [postProducts, saveProduct, h1, h2, h3, h4, h5, h6, hn, hm, hd, hi,
      hc, hcat, hpr, hbd]

/-- A well-formed creation body whose price is the string "19.99" and whose
discount is absent. -/
def priceStringBody : ProductBody :=
  { name := JsVal.str "Jersey", model := JsVal.str "M1",
    price := JsVal.str "19.99", description := JsVal.str "home kit",
    discount := JsVal.undef, image := JsVal.str "img.png",
    category := JsVal.str "sports" }

/-- C1, witness: creating a product with price "19.99" and no discount stores
price 19.99 and discount 0 and answers 201. -/
theorem c1_create_product_witness :
    postProducts priceStringBody [] "a1" 5 =
      ((201, some
        { id := "a1", name := "Jersey", model := "M1",
          price := (1999 / 100 : ℚ), discount := 0,
          image := "img.png", description := "home kit",
          category := "sports", createdAt := 5 }),
       [{ id := "a1", name := "Jersey", model := "M1",
          price := (1999 / 100 : ℚ), discount := 0,
          image := "img.png", description := "home kit",
          category := "sports", createdAt := 5 }]) := by
  have hq : (mkRat 1999 100 : ℚ) = 1999 / 100 := by
    rw [Rat.mkRat_eq_div]; norm_num
  have hpr : jsParseFloat priceStringBody.price = some (1999 / 100 : ℚ) := by
    rw [← hq]; decide
  have hdc : (if truthy priceStringBody.discount = true
      then jsParseFloat priceStringBody.discount else some 0)
      = some (0 : ℚ) := by decide
  have h := c1_create_product_amended priceStringBody [] "a1" 5
    "Jersey" "M1" "home kit" "img.png" "sports" (1999 / 100 : ℚ) 0
    (by decide) (by decide) (by decide) (by decide) (by decide) (by decide)
    (by decide) (by decide) (by decide) (by decide) (by decide) (by decide)
    hpr hdc
  rw [h]
  rfl

/-- The store query `Product.find(query)` built by `GET /products`: an empty
filter, or an equality filter on `category` when the parameter is truthy. -/
def productQuery (category : Option String) (store : List StoredProduct) :
    List StoredProduct :=
  match category with
  | some c => if c = "" then store else store.filter fun p => p.category == c
  | none => store

/-- `GET /products` (src/index.js lines 153-168): optional category equality
filter — applied only when the query value is truthy — then a newest-first
sort; always 200. -/
def getProducts (category : Option String) (store : List StoredProduct) :
    ℕ × List StoredProduct :=
  (200, sortNewest StoredProduct.createdAt (productQuery category store))

/-- `GET /products/:id` (src/index.js lines 171-206): 400 on a malformed
ObjectId, 404 when absent, else 200 with the document. -/
def getProductById (id : String) (store : List StoredProduct) :
    ℕ × Option StoredProduct :=
  if isValidObjectId id then
    match store.find? (fun p => p.id == id) with
    | some p => (200, some p)
    | none => (404, none)
  else (400, none)

/-- The cast update document of `PUT /api/products/:id`: each string-field
slot is `none` when the body field is absent (`undefined` values are skipped
by the `$set`); `price` and `discount` are always set.  Having one record per
cast update mirrors that Mongoose casts and (under `runValidators: true`)
validates the `updatedFields` document itself — required non-empty strings,
category enum, Number cast rejecting NaN — before any document is matched. -/
structure ProductUpdate where
  name : Option String
  model : Option String
  description : Option String
  image : Option String
  category : Option String
  price : ℚ
  discount : ℚ
deriving DecidableEq

/-- Cast and validate the `updatedFields` document built by
`PUT /api/products/:id`.  `none` is a `CastError`/`ValidationError` answered
500 — in particular when `parseFloat(price)` is NaN, which happens for every
request that omits the price. -/
def castProductUpdate (b : ProductBody) : Option ProductUpdate := do
  let nm ← match b.name with
    | JsVal.undef => some none
    | v => (castReqString v).map some
  let md ← match b.model with
    | JsVal.undef => some none
    | v => (castReqString v).map some
  let ds ← match b.description with
    | JsVal.undef => some none
    | v => (castReqString v).map some
  let im ← match b.image with
    | JsVal.undef => some none
    | v => (castReqString v).map some
  let ct ← match b.category with
    | JsVal.undef => some none
    | v => do
      let c ← castReqString v
      if c ∈ productCategories then some (some c) else none
  let pr ← jsParseFloat b.price
  let dc ← if truthy b.discount then jsParseFloat b.discount else some 0
  some { name := nm, model := md, description := ds, image := im,
         category := ct, price := pr, discount := dc }

/-- Apply a cast product update to a stored document: set fields overwrite,
skipped fields keep their stored values. -/
def applyProductUpdate (u : ProductUpdate) (p : StoredProduct) :
    StoredProduct :=
  { p with
      name := u.name.getD p.name
      model := u.model.getD p.model
      description := u.description.getD p.description
      image := u.image.getD p.image
      category := u.category.getD p.category
      price := u.price
      discount := u.discount }

/-- `PUT /api/products/:id` (src/index.js lines 209-241): a malformed id or an
update document that fails its casts/validators is answered 500 (Mongoose
processes the update document before matching); an absent id answers 404;
otherwise the first matching document is replaced field-wise and answered
200. -/
def putProduct (id : String) (b : ProductBody) (store : List StoredProduct) :
    (ℕ × Option StoredProduct) × List StoredProduct :=
  if isValidObjectId id then
    match castProductUpdate b with
    | none => ((500, none), store)
    | some u =>
      match store.find? (fun p => p.id == id) with
      | none => ((404, none), store)
      | some p =>
        ((200, some (applyProductUpdate u p)),
         updateFirst (fun q => q.id == id) (fun _ => applyProductUpdate u p)
           store)
  else ((500, none), store)

/-- `DELETE /api/products/:id` (src/index.js lines 244-260): malformed id →
`CastError` → 500; absent → 404; else the first matching document is removed
and the 200 response body carries the deleted document. -/
def deleteProduct (id : String) (store : List StoredProduct) :
    (ℕ × Option StoredProduct) × List StoredProduct :=
  if isValidObjectId id then
    match store.find? (fun p => p.id == id) with
    | none => ((404, none), store)
    | some p => ((200, some p), store.eraseP (fun q => q.id == id))
  else ((500, none), store)

/-- A ComboProduct document as stored (comboProductSchema).  `price` and
`discount` are `Option ℚ` with `none` playing a stored null, which the
validator-free update path can write (the Number cast maps an empty string
to null). -/
structure StoredCombo where
  id : String
  name : String
  model : String
  price : Option ℚ
  discount : Option ℚ
  description : String
  images : List String
  createdAt : ℕ
deriving DecidableEq

/-- The fields `POST /combo` destructures from `req.body`. -/
structure ComboBody where
  name : JsVal
  model : JsVal
  price : JsVal
  discount : JsVal
  description : JsVal
  images : JsVal

/-- JavaScript `value.length` as read by the combo handler's
`images.length === 0` test: defined for strings and arrays, `undefined`
(hence never equal to 0) for other values. -/
def jsLength : JsVal → Option ℕ
  | JsVal.str s => some s.length
  | JsVal.arr xs => some xs.length
  | _ => none

/-- Saving the new ComboProduct: required strings, a required Number cast for
the price, a plain Number cast for the discount (default 0 when absent, null
allowed), `[String]` cast for images. -/
def saveCombo (b : ComboBody) (newId : String) (now : ℕ) :
    Option StoredCombo := do
  let nm ← castReqString b.name
  let md ← castReqString b.model
  let pr ← castReqNumber b.price
  let dc ← match b.discount with
    | JsVal.undef => some (some 0)
    | v => castNumberM v
  let ds ← castReqString b.description
  let im ← castStringList b.images
  some { id := newId, name := nm, model := md, price := some pr,
         discount := dc, description := ds, images := im, createdAt := now }

/-- `POST /combo` (src/index.js lines 264-288): 400 when a required field is
falsy or `images.length === 0`; else save, answering 201 with the document or
500 on a store failure. -/
def postCombo (b : ComboBody) (store : List StoredCombo)
    (newId : String) (now : ℕ) :
    (ℕ × Option StoredCombo) × List StoredCombo :=
  if truthy b.name && truthy b.model && truthy b.price && truthy b.description
      && truthy b.images && !(jsLength b.images == some 0) then
    match saveCombo b newId now with
    | some doc => ((201, some doc), store ++ [doc])
    | none => ((500, none), store)
  else ((400, none), store)

/-- `GET /combo` (src/index.js lines 291-299): `ComboProduct.find()` with no
sort — the documents come back in store order; always 200. -/
def getCombo (store : List StoredCombo) : ℕ × List StoredCombo :=
  (200, store)

/-- `GET /combos/:id` (src/index.js lines 302-337): validates the id format —
400 malformed, 404 absent, else 200 with the document. -/
def getCombosById (id : String) (store : List StoredCombo) :
    ℕ × Option StoredCombo :=
  if isValidObjectId id then
    match store.find? (fun p => p.id == id) with
    | some p => (200, some p)
    | none => (404, none)
  else (400, none)

/-- `GET /combo/:id` (src/index.js lines 346-357): no id-format validation, so
a malformed id raises a `CastError` answered 500; 404 absent; 200 found. -/
def getComboById (id : String) (store : List StoredCombo) :
    ℕ × Option StoredCombo :=
  if isValidObjectId id then
    match store.find? (fun p => p.id == id) with
    | some p => (200, some p)
    | none => (404, none)
  else (500, none)

/-- `DELETE /combo/:id` (src/index.js lines 360-374): malformed id → 500;
absent → 404; else the document is removed, but the 200 body carries only a
message — no deleted document (payload component is `none`). -/
def deleteCombo (id : String) (store : List StoredCombo) :
    (ℕ × Option StoredCombo) × List StoredCombo :=
  if isValidObjectId id then
    match store.find? (fun p => p.id == id) with
    | none => ((404, none), store)
    | some _ => ((200, none), store.eraseP (fun q => q.id == id))
  else ((500, none), store)

/-- The cast `req.body` update document of `PUT /combo/:id`, without
validators: `none` in an outer slot means the field is absent and skipped by
the `$set`; present fields only pass the Mongoose casts (an empty string is
accepted for the string paths — `required` is not re-checked — and casts to
null for the number paths). -/
structure ComboUpdate where
  name : Option String
  model : Option String
  price : Option (Option ℚ)
  discount : Option (Option ℚ)
  description : Option String
  images : Option (List String)
deriving DecidableEq

/-- Cast the `PUT /combo/:id` update document; `none` is a `CastError`,
raised before any document is matched. -/
def castComboUpdate (b : ComboBody) : Option ComboUpdate := do
  let nm ← match b.name with
    | JsVal.undef => some none
    | v => (castString v).map some
  let md ← match b.model with
    | JsVal.undef => some none
    | v => (castString v).map some
  let pr ← match b.price with
    | JsVal.undef => some none
    | v => (castNumberM v).map some
  let dc ← match b.discount with
    | JsVal.undef => some none
    | v => (castNumberM v).map some
  let ds ← match b.description with
    | JsVal.undef => some none
    | v => (castString v).map some
  let im ← match b.images with
    | JsVal.undef => some none
    | v => (castStringList v).map some
  some { name := nm, model := md, price := pr, discount := dc,
         description := ds, images := im }

/-- Apply a cast combo update to a stored document. -/
def applyComboUpdate (u : ComboUpdate) (p : StoredCombo) : StoredCombo :=
  { p with
      name := u.name.getD p.name
      model := u.model.getD p.model
      price := u.price.getD p.price
      discount := u.discount.getD p.discount
      description := u.description.getD p.description
      images := u.images.getD p.images }

/-- `PUT /combo/:id` (src/index.js lines 378-396): malformed id or an
uncastable update document → 500 (Mongoose casts the update before
matching); absent id → 404; else 200 with the updated document. -/
def putCombo (id : String) (b : ComboBody) (store : List StoredCombo) :
    (ℕ × Option StoredCombo) × List StoredCombo :=
  if isValidObjectId id then
    match castComboUpdate b with
    | none => ((500, none), store)
    | some u =>
      match store.find? (fun p => p.id == id) with
      | none => ((404, none), store)
      | some p =>
        ((200, some (applyComboUpdate u p)),
         updateFirst (fun q => q.id == id) (fun _ => applyComboUpdate u p)
           store)
  else ((500, none), store)

/-- A Banner document as stored (bannerSchema); it has no creation
timestamp. -/
structure StoredBanner where
  id : String
  image : String
  caption : String
deriving DecidableEq

/-- `POST /banner` (src/index.js lines 400-415): no handler validation at
all — the document is saved directly, and the schema's `required` checks
reject a missing or empty image or caption, which the handler answers 500.
A successful save answers 201 (the body is only a message). -/
def postBanner (image caption : JsVal) (store : List StoredBanner)
    (newId : String) : ℕ × List StoredBanner :=
  match castReqString image, castReqString caption with
  | some im, some cap => (201, store ++ [{ id := newId, image := im, caption := cap }])
  | _, _ => (500, store)

/-- `GET /banner` (src/index.js lines 418-426): `Banner.find()` with no sort;
always 200 in store order. -/
def getBanner (store : List StoredBanner) : ℕ × List StoredBanner :=
  (200, store)

/-- `GET /banner/:id` (src/index.js lines 429-440): no id-format validation,
so a malformed id raises a `CastError` answered 500; 404 absent; 200 found. -/
def getBannerById (id : String) (store : List StoredBanner) :
    ℕ × Option StoredBanner :=
  if isValidObjectId id then
    match store.find? (fun p => p.id == id) with
    | some p => (200, some p)
    | none => (404, none)
  else (500, none)

/-- `DELETE /banner/:id` (src/index.js lines 443-450): the result of
`findByIdAndDelete` is never inspected — a well-formed id always answers 200
with a message (no deleted document, whether or not anything was removed);
only a malformed id (`CastError`) answers 500. -/
def deleteBanner (id : String) (store : List StoredBanner) :
    (ℕ × Option StoredBanner) × List StoredBanner :=
  if isValidObjectId id then
    ((200, none), store.eraseP (fun q => q.id == id))
  else ((500, none), store)

/-- The cast `image`/`caption` update document of `PUT /banner/:id`, without
validators: absent fields skipped, present ones cast. -/
structure BannerUpdate where
  image : Option String
  caption : Option String
deriving DecidableEq

/-- Cast the `PUT /banner/:id` update document; `none` is a `CastError`,
raised before any document is matched. -/
def castBannerUpdate (image caption : JsVal) : Option BannerUpdate := do
  let im ← match image with
    | JsVal.undef => some none
    | v => (castString v).map some
  let cap ← match caption with
    | JsVal.undef => some none
    | v => (castString v).map some
  some { image := im, caption := cap }

/-- Apply a cast banner update to a stored document. -/
def applyBannerUpdate (u : BannerUpdate) (p : StoredBanner) : StoredBanner :=
  { p with image := u.image.getD p.image, caption := u.caption.getD p.caption }

/-- `PUT /banner/:id` (src/index.js lines 453-465): a malformed id or an
uncastable update document answers 500 (Mongoose casts the update before
matching); otherwise the update result is sent back unconditionally — an
absent id answers 200 with a JSON `null` body (payload `some none`), never
404. -/
def putBanner (id : String) (image caption : JsVal)
    (store : List StoredBanner) :
    (ℕ × Option (Option StoredBanner)) × List StoredBanner :=
  if isValidObjectId id then
    match castBannerUpdate image caption with
    | none => ((500, none), store)
    | some u =>
      match store.find? (fun p => p.id == id) with
      | none => ((200, some none), store)
      | some p =>
        ((200, some (some (applyBannerUpdate u p))),
         updateFirst (fun q => q.id == id) (fun _ => applyBannerUpdate u p)
           store)
  else ((500, none), store)

/-- An Order document as stored (orderSchema with `timestamps: true`).
`transactionId` is `none` for the schema default `null`. -/
structure StoredOrder where
  id : String
  productId : String
  productName : String
  quantity : ℚ
  totalPrice : ℚ
  buyerName : String
  buyerEmail : String
  phone : String
  address : String
  status : String
  transactionId : Option String
  orderedBy : String
  createdAt : ℕ
  updatedAt : ℕ
deriving DecidableEq

/-- The fields `POST /order` destructures from `req.body`. -/
structure OrderBody where
  productId : JsVal
  productName : JsVal
  quantity : JsVal
  totalPrice : JsVal
  buyerName : JsVal
  buyerEmail : JsVal
  phone : JsVal
  orderedBy : JsVal
  address : JsVal

/-- Saving the new Order: `productId` must cast to an ObjectId, the strings
and numbers cast, `orderedBy` defaults to "website" and is enum-checked,
`status` takes its default "pending", `transactionId` its default `null`, and
`timestamps: true` stamps both `createdAt` and `updatedAt`. -/
def saveOrder (b : OrderBody) (newId : String) (now : ℕ) :
    Option StoredOrder :=
  match castString b.productId with
  | none => none
  | some pid =>
    if isValidObjectId pid then do
      let pn ← castString b.productName
      let qty ← castReqNumber b.quantity
      let tot ← castReqNumber b.totalPrice
      let bn ← castString b.buyerName
      let be ← castString b.buyerEmail
      let ph ← castString b.phone
      let ad ← castString b.address
      let ob ← match b.orderedBy with
        | JsVal.undef => some "website"
        | v => do
          let s ← castString v
          if s = "website" ∨ s = "bkash" then some s else none
      some { id := newId, productId := pid, productName := pn, quantity := qty,
             totalPrice := tot, buyerName := bn, buyerEmail := be, phone := ph,
             address := ad, status := "pending", transactionId := none,
             orderedBy := ob, createdAt := now, updatedAt := now }
    else none

/-- `POST /order` (src/unnamed/part_000 lines 482-541): truthiness check on
the eight required fields (`orderedBy` is optional), else 400; then save,
answering 201 with the order or 500 on a store failure. -/
def postOrder (b : OrderBody) (store : List StoredOrder)
    (newId : String) (now : ℕ) :
    (ℕ × Option StoredOrder) × List StoredOrder :=
  if truthy b.productId && truthy b.productName && truthy b.quantity
      && truthy b.totalPrice && truthy b.buyerName && truthy b.buyerEmail
      && truthy b.phone && truthy b.address then
    match saveOrder b newId now with
    | some o => ((201, some o), store ++ [o])
    | none => ((500, none), store)
  else ((400, none), store)

/-- `GET /orders` (src/unnamed/part_000 lines 546-554): all orders
newest-first; always 200 (an empty store gives an empty array). -/
def getOrders (store : List StoredOrder) : ℕ × List StoredOrder :=
  (200, sortNewest StoredOrder.createdAt store)

/-- The fields `PATCH /orders/:id` destructures from `req.body`. -/
structure PatchBody where
  status : JsVal
  transactionId : JsVal

/-- The cast patch document of `PATCH /orders/:id`: `status` and
`transactionId` are copied into the update only when truthy (so a present
empty string is skipped), each cast to a string. -/
structure OrderPatch where
  status : Option String
  transactionId : Option String
deriving DecidableEq

/-- Cast the `PATCH /orders/:id` update document; `none` is a `CastError`
(e.g. an array value), raised before any document is matched. -/
def castOrderPatch (b : PatchBody) : Option OrderPatch :=
  match (if truthy b.status then (castString b.status).map some
      else some none),
      (if truthy b.transactionId then (castString b.transactionId).map some
       else some none) with
  | some st, some tid => some { status := st, transactionId := tid }
  | _, _ => none

/-- Apply a cast order patch to a stored document; `timestamps: true` always
refreshes `updatedAt`. -/
def applyOrderPatch (u : OrderPatch) (now : ℕ) (o : StoredOrder) :
    StoredOrder :=
  { o with
      status := u.status.getD o.status
      transactionId := match u.transactionId with
        | some s => some s
        | none => o.transactionId
      updatedAt := now }

/-- `PATCH /orders/:id` (src/unnamed/part_000 lines 558-573): a malformed id
or an uncastable update document is a `CastError` answered 500 (Mongoose
casts the update before matching); otherwise the result of
`findByIdAndUpdate` is sent back with status 200 and `success: true` even
when no order has the id — the body then carries `order: null` (payload
`some none`), never a 404.  No validator runs on the update, so any string
`status` is stored as-is. -/
def patchOrder (id : String) (b : PatchBody) (now : ℕ)
    (store : List StoredOrder) :
    (ℕ × Option (Option StoredOrder)) × List StoredOrder :=
  if isValidObjectId id then
    match castOrderPatch b with
    | none => ((500, none), store)
    | some u =>
      match store.find? (fun o => o.id == id) with
      | none => ((200, some none), store)
      | some o =>
        ((200, some (some (applyOrderPatch u now o))),
         updateFirst (fun q => q.id == id) (fun _ => applyOrderPatch u now o)
           store)
  else ((500, none), store)

/-- `GET /my-orders` (src/unnamed/part_000 lines 578-609): 400 when the email
query parameter is missing or empty; otherwise the orders with exactly that
`buyerEmail`, newest-first — but an empty result is answered 404, not 200. -/
def getMyOrders (email : Option String) (store : List StoredOrder) :
    ℕ × Option (List StoredOrder) :=
  match email with
  | none => (400, none)
  | some e =>
    if e = "" then (400, none)
    else
      let orders := sortNewest StoredOrder.createdAt
        (store.filter fun o => o.buyerEmail == e)
      if orders.isEmpty then (404, none) else (200, some orders)

/-- The characters `GET /search` escapes in the query before building its
regular expression: `.` `*` `+` `?` `^` `$` braces, parentheses, `|`,
brackets and backslash. -/
def regexSpecials : List Char :=
  ['.', '*', '+', '?', '^', '$', Char.ofNat 123, Char.ofNat 125,
   '(', ')', '|', '[', ']', '\\']

/-- The handler's `q.replace(..., backslash-dollar-ampersand)`: prefix every
special character with a backslash. -/
def escapeRegexChars : List Char → List Char
  | [] => []
  | c :: rest =>
    if c ∈ regexSpecials then '\\' :: c :: escapeRegexChars rest
    else c :: escapeRegexChars rest

/-- Reading a fully-escaped regular expression back as the literal text it
denotes: a backslash escapes the following character. -/
def unescapeRegexChars : List Char → List Char
  | [] => []
  | c :: rest =>
    if c = '\\' then
      match rest with
      | [] => ['\\']
      | d :: rest2 => d :: unescapeRegexChars rest2
    else c :: unescapeRegexChars rest

/-- Does `pre` start `l`? -/
def leadsWith : List Char → List Char → Bool
  | [], _ => true
  | _ :: _, [] => false
  | a :: as, b :: bs => a == b && leadsWith as bs

/-- Does `needle` occur contiguously inside `hay`? -/
def occursIn (needle : List Char) : List Char → Bool
  | [] => needle.isEmpty
  | c :: rest => leadsWith needle (c :: rest) || occursIn needle rest

/-- Lower-casing a character, modelling the ASCII part of the JS
case-insensitive comparison. -/
def lowerChar (c : Char) : Char :=
  if 'A' ≤ c ∧ c ≤ 'Z' then Char.ofNat (c.toNat + 32) else c

/-- Lower-casing a string character-wise. -/
def lowerStr (s : String) : String :=
  String.mk (s.data.map lowerChar)

/-- Semantics of the JS case-insensitive `RegExp.test` for the fully-escaped
(hence literal) patterns the search handler builds: the pattern's literal
text occurs in the target, compared lower-cased. -/
def regexTestCI (pattern target : String) : Bool :=
  occursIn (lowerStr (String.mk (unescapeRegexChars pattern.data))).data
    (lowerStr target).data

/-- Case-insensitive substring: does `q` occur in `t` ignoring case? -/
def substrCI (q t : String) : Bool :=
  occursIn (lowerStr q).data (lowerStr t).data

/-- `GET /search` (src/unnamed/part_000 lines 613-635): 400 when `q` is
missing, empty or whitespace-only; else the products whose `name` or `model`
matches the case-insensitively compiled, escaped query, newest-first. -/
def searchProducts (q : Option String) (store : List StoredProduct) :
    ℕ × List StoredProduct :=
  match q with
  | none => (400, [])
  | some qs =>
    if qs = "" then (400, [])
    else if jsTrim qs = "" then (400, [])
    else
      let rx := String.mk (escapeRegexChars qs.data)
      (200, sortNewest StoredProduct.createdAt
        (store.filter fun p => regexTestCI rx p.name || regexTestCI rx p.model))

/-- The two configured admin credentials (environment values). -/
structure AdminConfig where
  username : String
  password : String

/-- `POST /admin` (src/unnamed/part_000 lines 127-136; `POST /admin-login` in
src/index.js is identical): plaintext strict comparison of the submitted
username and password against the configured pair — `success: true`, else
401. -/
def postAdmin (cfg : AdminConfig) (username password : JsVal) : ℕ × Bool :=
  if jsEqStr username cfg.username && jsEqStr password cfg.password then
    (200, true)
  else (401, false)

/-- A User document as stored (userSchema of the auth service); the password
is plaintext. -/
structure StoredUser where
  id : String
  name : String
  photo : String
  phone : String
  email : String
  password : String
  role : String
  createdAt : ℕ
deriving DecidableEq

/-- The profile projection the auth endpoints answer with. -/
structure UserProfile where
  id : String
  name : String
  email : String
  role : String
  photo : String
deriving DecidableEq

/-- Project a stored user to the profile sent to clients. -/
def profileOf (u : StoredUser) : UserProfile :=
  { id := u.id, name := u.name, email := u.email, role := u.role,
    photo := u.photo }

/-- `POST /api/auth/login` (src/unnamed/part_000 lines 757-793): 400 when
email or password is missing/empty; 401 when no user has the email or the
stored plaintext password differs from the submitted one; else 200 with the
profile. -/
def authLogin (users : List StoredUser) (email password : JsVal) :
    ℕ × Option UserProfile :=
  if truthy email && truthy password then
    match users.find? (fun u => jsEqStr email u.email) with
    | none => (401, none)
    | some u => if jsEqStr password u.password then (200, some (profileOf u))
                else (401, none)
  else (400, none)

/-- `GET /api/auth/check` (src/unnamed/part_000 lines 797-817): reads nothing
from the request; `User.findOne()` — the first stored user — is answered 200
with its profile, and an empty user collection is answered 401. -/
def authCheck (users : List StoredUser) : ℕ × Option UserProfile :=
  match users with
  | [] => (401, none)
  | u :: _ => (200, some (profileOf u))

/-- A Product document of the auth service (its own productSchema: no
category, no discount). -/
structure AuthProduct where
  id : String
  name : String
  model : String
  price : ℚ
  image : String
  description : String
  createdAt : ℕ
deriving DecidableEq

/-- The auth service's product creation body fields (its schema's paths; the
handler passes `req.body` to the model wholesale). -/
structure AuthProductBody where
  name : JsVal
  model : JsVal
  price : JsVal
  image : JsVal
  description : JsVal

/-- `POST /products` of the auth service (src/unnamed/part_000 lines
825-833): no handler validation — the schema's `required` checks and casts
decide; a missing or empty required field fails the save and is answered
500, never 400. -/
def postProductsAuth (b : AuthProductBody) (store : List AuthProduct)
    (newId : String) (now : ℕ) : ℕ × List AuthProduct :=
  match castReqString b.name, castReqString b.model, castReqNumber b.price,
      castReqString b.image, castReqString b.description with
  | some nm, some md, some pr, some im, some ds =>
    (201, store ++ [{ id := newId, name := nm, model := md, price := pr,
                      image := im, description := ds, createdAt := now }])
  | _, _, _, _, _ => (500, store)

/-- `GET /products` of the auth service (src/unnamed/part_000 lines 835-844):
`Product.find()` with no filter and no sort; always 200 in store order. -/
def getProductsAuth (store : List AuthProduct) : ℕ × List AuthProduct :=
  (200, store)

/-- C2, counterexample: creating a Banner without an image (caption present)
is answered 500, not the 400 the claim states — the banner handler performs
no validation and the store's required-field rejection lands in the `catch`
branch.  Nothing is persisted. -/
theorem c2_banner_missing_image_500 :
    postBanner JsVal.undef (JsVal.str "Summer sale") [] "b1" = (500, []) := by
  decide

/-- C2, amended: the product, combo and order creation handlers check their
required fields for truthiness and answer 400 with nothing persisted when one
is missing or falsy (in particular a product without a category); the banner
creation handler and the auth service's product creation handler perform no
validation, so a required field that is missing or empty fails the store's
`required` check and is answered 500 — also with nothing persisted. -/
theorem c2_missing_required_amended :
    (∀ (b : ProductBody) (store : List StoredProduct) (newId : String) (now : ℕ),
      (truthy b.name = false ∨ truthy b.model = false ∨ truthy b.price = false
        ∨ truthy b.description = false ∨ truthy b.image = false
        ∨ truthy b.category = false) →
      postProducts b store newId now = ((400, none), store))
  ∧ (∀ (b : ComboBody) (store : List StoredCombo) (newId : String) (now : ℕ),
      (truthy b.name = false ∨ truthy b.model = false ∨ truthy b.price = false
        ∨ truthy b.description = false ∨ truthy b.images = false
        ∨ jsLength b.images = some 0) →
      postCombo b store newId now = ((400, none), store))
  ∧ (∀ (b : OrderBody) (store : List StoredOrder) (newId : String) (now : ℕ),
      (truthy b.productId = false ∨ truthy b.productName = false
        ∨ truthy b.quantity = false ∨ truthy b.totalPrice = false
        ∨ truthy b.buyerName = false ∨ truthy b.buyerEmail = false
        ∨ truthy b.phone = false ∨ truthy b.address = false) →
      postOrder b store newId now = ((400, none), store))
  ∧ (∀ (image caption : JsVal) (store : List StoredBanner) (newId : String),
      (castReqString image = none ∨ castReqString caption = none) →
      postBanner image caption store newId = (500, store))
  ∧ (∀ (b : AuthProductBody) (store : List AuthProduct) (newId : String) (now : ℕ),
      (castReqString b.name = none ∨ castReqString b.model = none
        ∨ b.price = JsVal.undef ∨ b.price = JsVal.null ∨ b.price = JsVal.str ""
        ∨ castReqString b.image = none ∨ castReqString b.description = none) →
      postProductsAuth b store newId now = (500, store)) := by
  refine ⟨?_, ?_, ?_, ?_, ?_⟩
  · intro b store newId now h
    rcases h with h | h | h | h | h | h <;> simp [postProducts, h]
  · intro b store newId now h
    rcases h with h | h | h | h | h | h <;> simp [postCombo, h]
  · intro b store newId now h
    rcases h with h | h | h | h | h | h | h | h <;> simp [postOrder, h]
  · intro image caption store newId h
    rcases h with h | h <;>
      · unfold postBanner
        rcases h1 : castReqString image with _ | s1 <;>
          rcases h2 : castReqString caption with _ | s2 <;>
          simp_all
  · intro b store newId now h
    have hp : castReqString b.name = none ∨ castReqString b.model = none
        ∨ castReqNumber b.price = none ∨ castReqString b.image = none
        ∨ castReqString b.description = none := by
      rcases h with h | h | h | h | h | h | h
      · exact Or.inl h
      · exact Or.inr (Or.inl h)
      · exact Or.inr (Or.inr (Or.inl (by rw [h]; decide)))
      · exact Or.inr (Or.inr (Or.inl (by rw [h]; decide)))
      · exact Or.inr (Or.inr (Or.inl (by rw [h]; decide)))
      · exact Or.inr (Or.inr (Or.inr (Or.inl h)))
      · exact Or.inr (Or.inr (Or.inr (Or.inr h)))
    unfold postProductsAuth
    rcases hp with h1 | h1 | h1 | h1 | h1 <;>
      rcases e1 : castReqString b.name with _ | s1 <;>
      rcases e2 : castReqString b.model with _ | s2 <;>
      rcases e3 : castReqNumber b.price with _ | s3 <;>
      rcases e4 : castReqString b.image with _ | s4 <;>
      rcases e5 : castReqString b.description with _ | s5 <;>
      simp_all

/-- A product-creation body whose `category` is absent (the rest valid). -/
def noCategoryBody : ProductBody :=
  { name := JsVal.str "Jersey", model := JsVal.str "M1",
    price := JsVal.str "10", description := JsVal.str "home kit",
    discount := JsVal.undef, image := JsVal.str "img.png",
    category := JsVal.undef }

/-- A combo-creation body whose `model` is absent. -/
def noModelComboBody : ComboBody :=
  { name := JsVal.str "Bundle", model := JsVal.undef,
    price := JsVal.num 30, discount := JsVal.undef,
    description := JsVal.str "two kits", images := JsVal.arr [JsVal.str "a.png"] }

/-- An order-creation body whose `address` is absent. -/
def noAddressOrderBody : OrderBody :=
  { productId := JsVal.str "aaaaaaaaaaaaaaaaaaaaaaaa",
    productName := JsVal.str "Jersey", quantity := JsVal.num 1,
    totalPrice := JsVal.num 10, buyerName := JsVal.str "B",
    buyerEmail := JsVal.str "b@x.y", phone := JsVal.str "017",
    orderedBy := JsVal.undef, address := JsVal.undef }

/-- An auth-service product body whose `name` is absent. -/
def noNameAuthBody : AuthProductBody :=
  { name := JsVal.undef, model := JsVal.str "M1",
    price := JsVal.num 10, image := JsVal.str "i.png",
    description := JsVal.str "d" }

/-- C2, witness: a product without category, a combo without model and an
order without address are each answered 400 with the store unchanged, and a
banner without caption and an auth-service product without name are each
answered 500 with the store unchanged. -/
theorem c2_missing_required_witness :
    postProducts noCategoryBody [] "p1" 0 = ((400, none), [])
  ∧ postCombo noModelComboBody [] "c1" 0 = ((400, none), [])
  ∧ postOrder noAddressOrderBody [] "o1" 0 = ((400, none), [])
  ∧ postBanner (JsVal.str "img.png") JsVal.undef [] "b2" = (500, [])
  ∧ postProductsAuth noNameAuthBody [] "p2" 0 = (500, []) :=
  ⟨c2_missing_required_amended.1 noCategoryBody [] "p1" 0 (by decide),
   c2_missing_required_amended.2.1 noModelComboBody [] "c1" 0 (by decide),
   c2_missing_required_amended.2.2.1 noAddressOrderBody [] "o1" 0 (by decide),
   c2_missing_required_amended.2.2.2.1 (JsVal.str "img.png") JsVal.undef [] "b2"
     (by decide),
   c2_missing_required_amended.2.2.2.2 noNameAuthBody [] "p2" 0
     (Or.inl (by decide))⟩

/-- C3, counterexample: fetching a banner under a malformed id is answered
500 — the `GET /banner/:id` handler never validates the id format, so the
`findById` cast failure lands in its catch branch — where the claim requires
400, never 500. -/
theorem c3_banner_malformed_id_500 :
    getBannerById "not-an-objectid" [] = (500, none) := by
  decide

/-- C3, amended: `GET /products/:id` and `GET /combos/:id` behave as claimed
(400 malformed, 404 absent, 200 found), but `GET /banner/:id` and
`GET /combo/:id` skip the format validation and answer 500 on a malformed
id; for a well-formed id all four answer 404 when absent and 200 with the
document when present. -/
theorem c3_get_by_id_amended :
    (∀ (id : String) (ps : List StoredProduct) (cs cs2 : List StoredCombo)
        (bs : List StoredBanner),
      isValidObjectId id = false →
      getProductById id ps = (400, none) ∧ getCombosById id cs = (400, none)
        ∧ getComboById id cs2 = (500, none) ∧ getBannerById id bs = (500, none))
  ∧ (∀ (id : String), isValidObjectId id = true →
      (∀ ps : List StoredProduct, ps.find? (fun p => p.id == id) = none →
        getProductById id ps = (404, none))
      ∧ (∀ cs : List StoredCombo, cs.find? (fun p => p.id == id) = none →
        getCombosById id cs = (404, none) ∧ getComboById id cs = (404, none))
      ∧ (∀ bs : List StoredBanner, bs.find? (fun p => p.id == id) = none →
        getBannerById id bs = (404, none)))
  ∧ (∀ (id : String), isValidObjectId id = true →
      (∀ (ps : List StoredProduct) (p : StoredProduct),
        ps.find? (fun x => x.id == id) = some p →
        getProductById id ps = (200, some p))
      ∧ (∀ (cs : List StoredCombo) (c : StoredCombo),
        cs.find? (fun x => x.id == id) = some c →
        getCombosById id cs = (200, some c) ∧ getComboById id cs = (200, some c))
      ∧ (∀ (bs : List StoredBanner) (bn : StoredBanner),
        bs.find? (fun x => x.id == id) = some bn →
        getBannerById id bs = (200, some bn))) := by
  refine ⟨?_, ?_, ?_⟩
  · intro id ps cs cs2 bs h
    simp [getProductById, getCombosById, getComboById, getBannerById, h]
  · intro id h
    refine ⟨?_, ?_, ?_⟩
    · intro ps hf; simp [getProductById, h, hf]
    · intro cs hf; simp [getCombosById, getComboById, h, hf]
    · intro bs hf; simp [getBannerById, h, hf]
  · intro id h
    refine ⟨?_, ?_, ?_⟩
    · intro ps p hf; simp [getProductById, h, hf]
    · intro cs c hf; simp [getCombosById, getComboById, h, hf]
    · intro bs bn hf; simp [getBannerById, h, hf]

/-- A demonstration stored product under a well-formed ObjectId. -/
def demoProduct : StoredProduct :=
  { id := "aaaaaaaaaaaaaaaaaaaaaaaa", name := "Jersey", model := "nike-air",
    price := 10, discount := 0, image := "img.png",
    description := "home kit", category := "sports", createdAt := 3 }

/-- C3, witness: under the well-formed id of `demoProduct`, fetching from an
empty store answers 404 and fetching from a store holding the document
answers 200 with it; under a malformed id the product endpoint answers 400
while the banner endpoint answers 500. -/
theorem c3_get_by_id_witness :
    getProductById "aaaaaaaaaaaaaaaaaaaaaaaa" [] = (404, none)
  ∧ getProductById "aaaaaaaaaaaaaaaaaaaaaaaa" [demoProduct] = (200, some demoProduct)
  ∧ getProductById "zz" [] = (400, none)
  ∧ getBannerById "zz" [] = (500, none) :=
  ⟨((c3_get_by_id_amended.2.1 "aaaaaaaaaaaaaaaaaaaaaaaa" (by decide)).1 []
      (by decide)),
   ((c3_get_by_id_amended.2.2 "aaaaaaaaaaaaaaaaaaaaaaaa" (by decide)).1
      [demoProduct] demoProduct (by decide)),
   ((c3_get_by_id_amended.1 "zz" [] [] [] [] (by decide)).1),
   ((c3_get_by_id_amended.1 "zz" [] [] [] [] (by decide)).2.2.2)⟩

/-- After erasing the (unique, by id-nodup) document found under an id, no
document with that id remains to be found. -/
theorem find?_eraseP_none {α : Type} (k : α → String) (id : String)
    (l : List α) (hnd : (l.map k).Nodup) (x : α)
    (hf : l.find? (fun a => k a == id) = some x) :
    (l.eraseP (fun a => k a == id)).find? (fun a => k a == id) = none := by
  induction l with
  | nil => simp at hf
  | cons a t ih =>
    rw [List.map_cons, List.nodup_cons] at hnd
    by_cases ha : (k a == id) = true
    · have hkid : k a = id := by simpa using ha
      rw [List.eraseP_cons, ha, cond_true, List.find?_eq_none]
      intro y hy
      simp only [beq_iff_eq]
      intro hky
      exact hnd.1 (hkid ▸ hky ▸ List.mem_map_of_mem k hy)
    · have ha' : (k a == id) = false := by simpa using ha
      have hf' : t.find? (fun a => k a == id) = some x := by
        rw [List.find?_cons] at hf
        simpa [ha'] using hf
      rw [List.eraseP_cons, ha', cond_false, List.find?_cons]
      simpa [ha'] using ih hnd.2 hf'

/-- C4, counterexample: patching an order under a well-formed id that no
stored order has is answered 200 with `success: true` and a `null` order —
not the 404 the claim states — because the handler sends the
`findByIdAndUpdate` result without inspecting it. -/
theorem c4_patch_absent_200 :
    patchOrder "aaaaaaaaaaaaaaaaaaaaaaaa"
      { status := JsVal.str "shipped", transactionId := JsVal.undef } 9 []
      = ((200, some none), []) := by
  decide

/-- C4, amended: for a well-formed id and an update document that passes its
casts (Mongoose casts the update before matching, so an uncastable body is a
500 regardless of the id), product and combo update and delete answer 404
with the store unchanged when no document has the id, but `PATCH /orders/:id`
and `PUT /banner/:id` answer 200 carrying a `null` document and
`DELETE /banner/:id` answers 200 unconditionally.  For a present id, updates
answer 200 with the updated document; `DELETE /api/products/:id` answers 200
with the deleted document in the payload, while combo and banner deletion
answer 200 with a message only (no document).  Hence deleting the same
product twice (ids unique) yields 200 then 404, while deleting the same
banner twice yields 200 twice. -/
theorem c4_update_delete_amended :
    (∀ (id : String), isValidObjectId id = true →
      (∀ (b : ProductBody) (u : ProductUpdate) (ps : List StoredProduct),
        castProductUpdate b = some u →
        ps.find? (fun x => x.id == id) = none →
        putProduct id b ps = ((404, none), ps))
      ∧ (∀ ps : List StoredProduct,
        ps.find? (fun x => x.id == id) = none →
        deleteProduct id ps = ((404, none), ps))
      ∧ (∀ (b : ComboBody) (u : ComboUpdate) (cs : List StoredCombo),
        castComboUpdate b = some u →
        cs.find? (fun x => x.id == id) = none →
        putCombo id b cs = ((404, none), cs))
      ∧ (∀ cs : List StoredCombo,
        cs.find? (fun x => x.id == id) = none →
        deleteCombo id cs = ((404, none), cs))
      ∧ (∀ (pb : PatchBody) (u : OrderPatch) (now : ℕ)
          (os : List StoredOrder),
        castOrderPatch pb = some u →
        os.find? (fun x => x.id == id) = none →
        patchOrder id pb now os = ((200, some none), os))
      ∧ (∀ (im cap : JsVal) (u : BannerUpdate) (bs : List StoredBanner),
        castBannerUpdate im cap = some u →
        bs.find? (fun x => x.id == id) = none →
        putBanner id im cap bs = ((200, some none), bs))
      ∧ (∀ bs : List StoredBanner,
        bs.find? (fun x => x.id == id) = none →
        deleteBanner id bs = ((200, none), bs)))
  ∧ (∀ (id : String), isValidObjectId id = true →
      (∀ (b : ProductBody) (u : ProductUpdate) (ps : List StoredProduct)
          (p : StoredProduct),
        castProductUpdate b = some u →
        ps.find? (fun x => x.id == id) = some p →
        putProduct id b ps = ((200, some (applyProductUpdate u p)),
          updateFirst (fun q => q.id == id)
            (fun _ => applyProductUpdate u p) ps))
      ∧ (∀ (ps : List StoredProduct) (p : StoredProduct),
        ps.find? (fun x => x.id == id) = some p →
        deleteProduct id ps = ((200, some p), ps.eraseP (fun q => q.id == id)))
      ∧ (∀ (b : ComboBody) (u : ComboUpdate) (cs : List StoredCombo)
          (c : StoredCombo),
        castComboUpdate b = some u →
        cs.find? (fun x => x.id == id) = some c →
        putCombo id b cs = ((200, some (applyComboUpdate u c)),
          updateFirst (fun q => q.id == id) (fun _ => applyComboUpdate u c) cs))
      ∧ (∀ (cs : List StoredCombo) (c : StoredCombo),
        cs.find? (fun x => x.id == id) = some c →
        deleteCombo id cs = ((200, none), cs.eraseP (fun q => q.id == id)))
      ∧ (∀ (bs : List StoredBanner) (bn : StoredBanner),
        bs.find? (fun x => x.id == id) = some bn →
        deleteBanner id bs = ((200, none), bs.eraseP (fun q => q.id == id))))
  ∧ (∀ (id : String) (ps : List StoredProduct) (p : StoredProduct),
      isValidObjectId id = true →
      (ps.map StoredProduct.id).Nodup →
      ps.find? (fun x => x.id == id) = some p →
      (deleteProduct id ps).1.1 = 200
        ∧ (deleteProduct id (deleteProduct id ps).2).1.1 = 404) := by
  refine ⟨?_, ?_, ?_⟩
  · intro id hv
    refine ⟨?_, ?_, ?_, ?_, ?_, ?_, ?_⟩
    · intro b u ps hc hf
      simp [putProduct, hv, hc, hf]
    · intro ps hf
      simp [deleteProduct, hv, hf]
    · intro b u cs hc hf
      simp [putCombo, hv, hc, hf]
    · intro cs hf
      simp [deleteCombo, hv, hf]
    · intro pb u now os hc hf
      simp [patchOrder, hv, hc, hf]
    · intro im cap u bs hc hf
      simp [putBanner, hv, hc, hf]
    · intro bs hf
      have hne : bs.eraseP (fun x => x.id == id) = bs :=
        List.eraseP_of_forall_not (List.find?_eq_none.1 hf)
      simp [deleteBanner, hv, hne]
  · intro id hv
    refine ⟨?_, ?_, ?_, ?_, ?_⟩
    · intro b u ps p hc hf
      simp [putProduct, hv, hc, hf]
    · intro ps p hf
      simp [deleteProduct, hv, hf]
    · intro b u cs c hc hf
      simp [putCombo, hv, hc, hf]
    · intro cs c hf
      simp [deleteCombo, hv, hf]
    · intro bs bn hf
      simp [deleteBanner, hv, hf]
  · intro id ps p hv hnd hf
    have h1 : deleteProduct id ps = ((200, some p), ps.eraseP (fun q => q.id == id)) := by
      simp [deleteProduct, hv, hf]
    have h2 : (ps.eraseP (fun q => q.id == id)).find? (fun q => q.id == id) = none :=
      find?_eraseP_none StoredProduct.id id ps hnd p hf
    rw [h1]
    exact ⟨rfl, by simp [deleteProduct, hv, h2]⟩

/-- A product-update body setting only the price (to the number 12); its cast
update document succeeds, skipping every string field. -/
def priceOnlyBody : ProductBody :=
  { name := JsVal.undef, model := JsVal.undef, price := JsVal.num 12,
    description := JsVal.undef, discount := JsVal.undef,
    image := JsVal.undef, category := JsVal.undef }

/-- The cast update document of `priceOnlyBody`. -/
def priceOnlyUpdate : ProductUpdate :=
  { name := none, model := none, description := none, image := none,
    category := none, price := 12, discount := 0 }

/-- C4, witness: under the well-formed id of `demoProduct`, a castable update
of an empty product store answers 404; deleting a one-product store answers
200 with the deleted document and deleting again answers 404; patching an
absent order and deleting an absent banner both answer 200. -/
theorem c4_update_delete_witness :
    putProduct "aaaaaaaaaaaaaaaaaaaaaaaa" priceOnlyBody [] = ((404, none), [])
  ∧ deleteProduct "aaaaaaaaaaaaaaaaaaaaaaaa" [demoProduct]
      = ((200, some demoProduct), [])
  ∧ (deleteProduct "aaaaaaaaaaaaaaaaaaaaaaaa"
      (deleteProduct "aaaaaaaaaaaaaaaaaaaaaaaa" [demoProduct]).2).1.1 = 404
  ∧ patchOrder "aaaaaaaaaaaaaaaaaaaaaaaa"
      { status := JsVal.undef, transactionId := JsVal.undef } 9 []
      = ((200, some none), [])
  ∧ deleteBanner "aaaaaaaaaaaaaaaaaaaaaaaa" [] = ((200, none), []) := by
  refine ⟨?_, ?_, ?_, ?_, ?_⟩
  · exact (c4_update_delete_amended.1 "aaaaaaaaaaaaaaaaaaaaaaaa" (by decide)).1
      priceOnlyBody priceOnlyUpdate [] (by decide) (by decide)
  · have h := (c4_update_delete_amended.2.1 "aaaaaaaaaaaaaaaaaaaaaaaa"
      (by decide)).2.1 [demoProduct] demoProduct (by decide)
    rw [h]
    rfl
  · exact (c4_update_delete_amended.2.2 "aaaaaaaaaaaaaaaaaaaaaaaa" [demoProduct]
      demoProduct (by decide) (by decide) (by decide)).2
  · exact (c4_update_delete_amended.1 "aaaaaaaaaaaaaaaaaaaaaaaa"
      (by decide)).2.2.2.2.1
      { status := JsVal.undef, transactionId := JsVal.undef }
      { status := none, transactionId := none } 9 [] (by decide) (by decide)
  · exact (c4_update_delete_amended.1 "aaaaaaaaaaaaaaaaaaaaaaaa"
      (by decide)).2.2.2.2.2.2 [] (by decide)

/-- A demonstration combo created before `comboNewer`. -/
def comboOlder : StoredCombo :=
  { id := "bbbbbbbbbbbbbbbbbbbbbbbb", name := "Bundle A", model := "MA",
    price := some 10, discount := some 0, description := "two kits",
    images := ["a.png"], createdAt := 0 }

/-- A demonstration combo created after `comboOlder`. -/
def comboNewer : StoredCombo :=
  { id := "cccccccccccccccccccccccc", name := "Bundle B", model := "MB",
    price := some 20, discount := some 0, description := "three kits",
    images := ["b.png"], createdAt := 5 }

/-- C5, counterexample: `GET /combo` returns the store order unchanged — with
an older combo stored before a newer one the response lists the older first
(creation times [0, 5]), not newest-first as the claim states. -/
theorem c5_combo_list_unsorted :
    (getCombo [comboOlder, comboNewer]).1 = 200
  ∧ (getCombo [comboOlder, comboNewer]).2.map StoredCombo.createdAt = [0, 5] := by
  decide

/-- C5, amended: `GET /products` (optional truthy category equality filter)
and `GET /orders` answer 200 with the matching documents newest-first, and an
empty match is still a 200 with an empty array; but `GET /combo`,
`GET /banner` and the auth service's `GET /products` issue no sort — they
answer 200 with the documents in store order (banners have no creation
timestamp at all). -/
theorem c5_list_amended :
    (∀ (c : Option String) (store : List StoredProduct),
      (getProducts c store).1 = 200
      ∧ List.Perm (getProducts c store).2 (productQuery c store)
      ∧ List.Sorted (newestFirst StoredProduct.createdAt) (getProducts c store).2
      ∧ (productQuery c store = [] → (getProducts c store).2 = []))
  ∧ (∀ store : List StoredOrder,
      (getOrders store).1 = 200
      ∧ List.Perm (getOrders store).2 store
      ∧ List.Sorted (newestFirst StoredOrder.createdAt) (getOrders store).2
      ∧ (store = [] → (getOrders store).2 = []))
  ∧ (∀ store : List StoredCombo, getCombo store = (200, store))
  ∧ (∀ store : List StoredBanner, getBanner store = (200, store))
  ∧ (∀ store : List AuthProduct, getProductsAuth store = (200, store)) := by
  refine ⟨?_, ?_, fun _ => rfl, fun _ => rfl, fun _ => rfl⟩
  · intro c store
    refine ⟨rfl, sortNewest_perm _ _, sortNewest_sorted _ _, ?_⟩
    intro h
    exact List.Perm.eq_nil (h ▸ sortNewest_perm StoredProduct.createdAt (productQuery c store))
  · intro store
    refine ⟨rfl, sortNewest_perm _ _, sortNewest_sorted _ _, ?_⟩
    intro h
    exact List.Perm.eq_nil (h ▸ sortNewest_perm StoredOrder.createdAt store)

/-- C5, witness: listing products of an empty store under no category filter
answers 200 with the empty array, and its output keeps the (trivially
established) newest-first order and permutation properties at that input. -/
theorem c5_list_witness :
    (getProducts none []).1 = 200
  ∧ List.Perm (getProducts none []).2 (productQuery none [])
  ∧ List.Sorted (newestFirst StoredProduct.createdAt) (getProducts none []).2
  ∧ (productQuery none [] = [] → (getProducts none []).2 = []) :=
  c5_list_amended.1 none []

/-- Unescaping consumes a backslash together with the following character. -/
theorem unescape_cons_bs (c : Char) (rest : List Char) :
    unescapeRegexChars ('\\' :: c :: rest) = c :: unescapeRegexChars rest := by
  simp [unescapeRegexChars]

/-- Unescaping passes a non-backslash head through. -/
theorem unescape_cons_plain (c : Char) (rest : List Char) (hb : ¬ c = '\\') :
    unescapeRegexChars (c :: rest) = c :: unescapeRegexChars rest := by
  cases rest <;> simp [unescapeRegexChars, hb]

/-- Unescaping an escaped query recovers the query: the escaping inserts a
backslash exactly before each special character, and a backslash itself is
special, so the read-back is unambiguous. -/
theorem unescape_escape (l : List Char) :
    unescapeRegexChars (escapeRegexChars l) = l := by
  induction l with
  | nil => rfl
  | cons c rest ih =>
    by_cases hc : c ∈ regexSpecials
    · rw [escapeRegexChars, if_pos hc, unescape_cons_bs, ih]
    · have hb : ¬ c = '\\' := by
        intro h
        subst h
        exact hc (by decide)
      rw [escapeRegexChars, if_neg hc, unescape_cons_plain c _ hb, ih]

/-- The case-insensitive regex test over the escaped query coincides with a
case-insensitive substring test for the raw query: escaping makes every
metacharacter literal (this is also why a query such as "C++" cannot make the
regex constructor throw). -/
theorem regexTestCI_escape (q t : String) :
    regexTestCI (String.mk (escapeRegexChars q.data)) t = substrCI q t := by
  unfold regexTestCI substrCI
  rw [show (String.mk (escapeRegexChars q.data)).data = escapeRegexChars q.data
      from rfl, unescape_escape]

/-- C6: `GET /search` answers 400 for a missing, empty or whitespace-only
query; for any other query it answers 200 with exactly the products whose
name or model contains the query as a case-insensitive substring — regex
metacharacters compared literally thanks to the escaping — newest-first. -/
theorem c6_search_spec :
    (∀ store : List StoredProduct, searchProducts none store = (400, []))
  ∧ (∀ (q : String) (store : List StoredProduct), jsTrim q = "" →
      searchProducts (some q) store = (400, []))
  ∧ (∀ (q : String) (store : List StoredProduct), jsTrim q ≠ "" →
      (searchProducts (some q) store).1 = 200
      ∧ List.Perm (searchProducts (some q) store).2
          (store.filter fun p => substrCI q p.name || substrCI q p.model)
      ∧ List.Sorted (newestFirst StoredProduct.createdAt)
          (searchProducts (some q) store).2) := by
  refine ⟨fun store => rfl, ?_, ?_⟩
  · intro q store hq
    by_cases h0 : q = ""
    · subst h0; rfl
    · simp [searchProducts, h0, hq]
  · intro q store hq
    have h0 : ¬ q = "" := by
      intro h
      subst h
      exact hq (by decide)
    have hfilters :
        store.filter (fun p =>
            regexTestCI (String.mk (escapeRegexChars q.data)) p.name
              || regexTestCI (String.mk (escapeRegexChars q.data)) p.model)
          = store.filter (fun p => substrCI q p.name || substrCI q p.model) := by
      apply List.filter_congr
      intro p _
      rw [regexTestCI_escape, regexTestCI_escape]
    have hout : (searchProducts (some q) store).2
        = sortNewest StoredProduct.createdAt
            (store.filter fun p => substrCI q p.name || substrCI q p.model) := by
      simp only [searchProducts, if_neg h0, if_neg hq]
      rw [hfilters]
    refine ⟨?_, ?_, ?_⟩
    · simp [searchProducts, h0, hq]
    · rw [hout]; exact sortNewest_perm _ _
    · rw [hout]; exact sortNewest_sorted _ _

/-- C6, witness: searching "Nike" over a store holding `demoProduct` (model
"nike-air") matches case-insensitively — the filter keeps the product — with
a 200 status and newest-first output, and a whitespace-only query answers
400. -/
theorem c6_search_witness :
    ((searchProducts (some "Nike") [demoProduct]).1 = 200
      ∧ List.Perm (searchProducts (some "Nike") [demoProduct]).2
          ([demoProduct].filter fun p =>
            substrCI "Nike" p.name || substrCI "Nike" p.model)
      ∧ List.Sorted (newestFirst StoredProduct.createdAt)
          (searchProducts (some "Nike") [demoProduct]).2)
  ∧ searchProducts (some "   ") [demoProduct] = (400, [])
  ∧ [demoProduct].filter (fun p =>
      substrCI "Nike" p.name || substrCI "Nike" p.model) = [demoProduct] :=
  ⟨c6_search_spec.2.2 "Nike" [demoProduct] (by decide),
   c6_search_spec.2.1 "   " [demoProduct] (by decide),
   by decide⟩

/-- A demonstration stored order of buyer "b@x.y". -/
def demoOrder : StoredOrder :=
  { id := "dddddddddddddddddddddddd", productId := "aaaaaaaaaaaaaaaaaaaaaaaa",
    productName := "Jersey", quantity := 1, totalPrice := 10,
    buyerName := "B", buyerEmail := "b@x.y", phone := "017",
    address := "Dhaka", status := "pending", transactionId := none,
    orderedBy := "website", createdAt := 4, updatedAt := 4 }

/-- C7: `GET /my-orders` answers 400 when the email parameter is missing (or
empty), 404 when no order has exactly the given buyer email, and otherwise
200 with exactly those orders (newest-first); `GET /orders` always answers
200, with an empty array on an empty store. -/
theorem c7_my_orders_spec :
    (∀ store : List StoredOrder, getMyOrders none store = (400, none))
  ∧ (∀ store : List StoredOrder, getMyOrders (some "") store = (400, none))
  ∧ (∀ (e : String) (store : List StoredOrder), e ≠ "" →
      store.filter (fun o => o.buyerEmail == e) = [] →
      getMyOrders (some e) store = (404, none))
  ∧ (∀ (e : String) (store : List StoredOrder), e ≠ "" →
      store.filter (fun o => o.buyerEmail == e) ≠ [] →
      (getMyOrders (some e) store).1 = 200
      ∧ ∃ l, (getMyOrders (some e) store).2 = some l
          ∧ List.Perm l (store.filter fun o => o.buyerEmail == e)
          ∧ List.Sorted (newestFirst StoredOrder.createdAt) l)
  ∧ (∀ store : List StoredOrder, (getOrders store).1 = 200)
  ∧ getOrders [] = (200, []) := by
  refine ⟨fun store => rfl, fun store => rfl, ?_, ?_, fun store => rfl, rfl⟩
  · intro e store he hf
    simp [getMyOrders, he, hf, sortNewest, List.insertionSort]
  · intro e store he hf
    have hne : (sortNewest StoredOrder.createdAt
        (store.filter fun o => o.buyerEmail == e)).isEmpty = false := by
      rw [Bool.eq_false_iff]
      intro hemp
      have hperm := sortNewest_perm StoredOrder.createdAt
        (store.filter fun o => o.buyerEmail == e)
      rw [List.isEmpty_iff.1 hemp] at hperm
      exact hf (List.Perm.symm hperm).eq_nil
    constructor
    · simp [getMyOrders, he, hne]
    · refine ⟨sortNewest StoredOrder.createdAt
        (store.filter fun o => o.buyerEmail == e), ?_,
        sortNewest_perm _ _, sortNewest_sorted _ _⟩
      simp [getMyOrders, he, hne]

/-- C7, witness: with one stored order of buyer "b@x.y", asking for an email
with no orders answers 404, asking for "b@x.y" answers 200 with exactly that
order, a missing email answers 400 and the admin list on an empty store
answers 200 with the empty array. -/
theorem c7_my_orders_witness :
    getMyOrders (some "zz@x.y") [demoOrder] = (404, none)
  ∧ ((getMyOrders (some "b@x.y") [demoOrder]).1 = 200
      ∧ ∃ l, (getMyOrders (some "b@x.y") [demoOrder]).2 = some l
          ∧ List.Perm l ([demoOrder].filter fun o => o.buyerEmail == "b@x.y")
          ∧ List.Sorted (newestFirst StoredOrder.createdAt) l)
  ∧ getMyOrders none [demoOrder] = (400, none)
  ∧ getOrders [] = (200, []) :=
  ⟨c7_my_orders_spec.2.2.1 "zz@x.y" [demoOrder] (by decide) (by decide),
   c7_my_orders_spec.2.2.2.1 "b@x.y" [demoOrder] (by decide) (by decide),
   c7_my_orders_spec.1 [demoOrder],
   c7_my_orders_spec.2.2.2.2.2⟩

/-- C8, counterexample: patching an order with a present but empty `status`
(and no `transactionId`) writes neither field — the handler's truthiness
check skips the empty string, though the field is present in the body — yet
the stored order still changes: `timestamps: true` rewrites `updatedAt`
(4 becomes 7 here).  Both effects contradict the claim that exactly the
present fields are written and every other field is unchanged. -/
theorem c8_patch_empty_status_skipped :
    patchOrder "dddddddddddddddddddddddd"
      { status := JsVal.str "", transactionId := JsVal.undef } 7 [demoOrder]
      = ((200, some (some { demoOrder with updatedAt := 7 })),
         [{ demoOrder with updatedAt := 7 }])
    ∧ demoOrder.status = "pending" ∧ demoOrder.updatedAt = 4 := by
  decide

/-- C8, amended: for an existing order, exactly the truthy (present and
non-empty) `status` and `transactionId` fields of the body are written —
a present empty string is skipped — plus `updatedAt`, which the schema's
timestamps refresh on every patch; every other field is unchanged.  No
state-machine check constrains the new status: any non-empty string,
including values outside the enumerated set, is stored as-is. -/
theorem c8_patch_amended (id : String) (b : PatchBody) (now : ℕ)
    (store : List StoredOrder) (o : StoredOrder) (u : OrderPatch)
    (hv : isValidObjectId id = true)
    (hc : castOrderPatch b = some u)
    (hf : store.find? (fun x => x.id == id) = some o) :
    patchOrder id b now store
      = ((200, some (some (applyOrderPatch u now o))),
         updateFirst (fun q => q.id == id)
           (fun _ => applyOrderPatch u now o) store)
    ∧ (applyOrderPatch u now o).updatedAt = now
    ∧ (truthy b.status = false →
        (applyOrderPatch u now o).status = o.status)
    ∧ (∀ s : String, b.status = JsVal.str s → ¬ s = "" →
        (applyOrderPatch u now o).status = s)
    ∧ (truthy b.transactionId = false →
        (applyOrderPatch u now o).transactionId = o.transactionId)
    ∧ (∀ s : String, b.transactionId = JsVal.str s → ¬ s = "" →
        (applyOrderPatch u now o).transactionId = some s)
    ∧ (applyOrderPatch u now o).id = o.id
    ∧ (applyOrderPatch u now o).productId = o.productId
    ∧ (applyOrderPatch u now o).productName = o.productName
    ∧ (applyOrderPatch u now o).quantity = o.quantity
    ∧ (applyOrderPatch u now o).totalPrice = o.totalPrice
    ∧ (applyOrderPatch u now o).buyerName = o.buyerName
    ∧ (applyOrderPatch u now o).buyerEmail = o.buyerEmail
    ∧ (applyOrderPatch u now o).phone = o.phone
    ∧ (applyOrderPatch u now o).address = o.address
    ∧ (applyOrderPatch u now o).orderedBy = o.orderedBy
    ∧ (applyOrderPatch u now o).createdAt = o.createdAt := by
  have hmain : patchOrder id b now store
      = ((200, some (some (applyOrderPatch u now o))),
         updateFirst (fun q => q.id == id)
           (fun _ => applyOrderPatch u now o) store) := by
    simp [patchOrder, hv, hc, hf]
  unfold castOrderPatch at hc
  cases hst : (if truthy b.status = true then (castString b.status).map some
      else some none) with
  | none => rw [hst] at hc; simp at hc
  | some st =>
    cases htid : (if truthy b.transactionId = true
        then (castString b.transactionId).map some
        else some none) with
    | none => rw [hst, htid] at hc; simp at hc
    | some tid =>
      rw [hst, htid] at hc
      simp only [Option.some.injEq] at hc
      subst hc
      refine ⟨hmain, rfl, ?_, ?_, ?_, ?_, rfl, rfl, rfl, rfl, rfl, rfl, rfl,
        rfl, rfl, rfl, rfl⟩
      · intro h
        rw [h] at hst
        have h1 : st = none := by simpa using hst.symm
        simp [applyOrderPatch, h1]
      · intro s hbs hs
        rw [hbs] at hst
        have htr : truthy (JsVal.str s) = true := by simp [truthy, hs]
        rw [htr] at hst
        have h1 : st = some s := by simpa [castString] using hst.symm
        simp [applyOrderPatch, h1]
      · intro h
        rw [h] at htid
        have h1 : tid = none := by simpa using htid.symm
        simp [applyOrderPatch, h1]
      · intro s hbs hs
        rw [hbs] at htid
        have htr : truthy (JsVal.str s) = true := by simp [truthy, hs]
        rw [htr] at htid
        have h1 : tid = some s := by simpa [castString] using htid.symm
        simp [applyOrderPatch, h1]

/-- C8, witness: patching `demoOrder` with status "banana" — a value outside
the enumerated set — and transactionId "tx9" stores both as-is, refreshes
`updatedAt` to the patch instant and leaves every other field unchanged. -/
theorem c8_patch_witness :
    patchOrder "dddddddddddddddddddddddd"
      { status := JsVal.str "banana", transactionId := JsVal.str "tx9" } 8
      [demoOrder]
      = ((200, some (some { demoOrder with
            status := "banana", transactionId := some "tx9", updatedAt := 8 })),
         [{ demoOrder with
            status := "banana", transactionId := some "tx9", updatedAt := 8 }]) := by
  have h := (c8_patch_amended "dddddddddddddddddddddddd"
    { status := JsVal.str "banana", transactionId := JsVal.str "tx9" } 8
    [demoOrder] demoOrder
    { status := some "banana", transactionId := some "tx9" }
    (by decide) (by decide) (by decide)).1
  rw [h]
  decide

/-- JS strict equality against a string holds exactly for the equal string
value. -/
theorem jsEqStr_iff (v : JsVal) (s : String) :
    jsEqStr v s = true ↔ v = JsVal.str s := by
  cases v <;> simp [jsEqStr]

/-- C9, counterexample: logging in with no email (password present) is
answered 400, not the 401 the claim's "401 otherwise" requires — the handler
has a separate missing-field branch. -/
theorem c9_login_missing_email_400 :
    authLogin [] JsVal.undef (JsVal.str "pw") = (400, none) := by
  decide

/-- C9, amended: `POST /admin` answers `success: true` exactly when the
submitted username and password both strictly equal the configured strings,
and 401 otherwise.  `POST /api/auth/login` first answers 400 when email or
password is missing or empty; with both present it answers 200 with the
stored user's profile exactly when a user with the submitted email exists and
its stored plaintext password strictly equals the submitted one, and 401
otherwise. -/
theorem c9_auth_amended :
    (∀ (cfg : AdminConfig) (u p : JsVal),
      postAdmin cfg u p = (200, true)
        ↔ (u = JsVal.str cfg.username ∧ p = JsVal.str cfg.password))
  ∧ (∀ (cfg : AdminConfig) (u p : JsVal),
      postAdmin cfg u p = (200, true) ∨ postAdmin cfg u p = (401, false))
  ∧ (∀ (users : List StoredUser) (e pw : JsVal),
      (truthy e && truthy pw) = false → authLogin users e pw = (400, none))
  ∧ (∀ (users : List StoredUser) (e pw : JsVal),
      (truthy e && truthy pw) = true →
      ((authLogin users e pw).1 = 200
        ↔ ∃ u, users.find? (fun x => jsEqStr e x.email) = some u
            ∧ jsEqStr pw u.password = true))
  ∧ (∀ (users : List StoredUser) (e pw : JsVal) (u : StoredUser),
      (truthy e && truthy pw) = true →
      users.find? (fun x => jsEqStr e x.email) = some u →
      jsEqStr pw u.password = true →
      authLogin users e pw = (200, some (profileOf u)))
  ∧ (∀ (users : List StoredUser) (e pw : JsVal),
      (truthy e && truthy pw) = true →
      (authLogin users e pw).1 = 200 ∨ authLogin users e pw = (401, none)) := by
  refine ⟨?_, ?_, ?_, ?_, ?_, ?_⟩
  · intro cfg u p
    constructor
    · intro h
      by_cases hc : (jsEqStr u cfg.username && jsEqStr p cfg.password) = true
      · simpa [Bool.and_eq_true, jsEqStr_iff] using hc
      · rw [postAdmin, if_neg hc] at h
        exact absurd h (by decide)
    · rintro ⟨hu, hp⟩
      subst hu
      subst hp
      simp [postAdmin, jsEqStr]
  · intro cfg u p
    by_cases hc : (jsEqStr u cfg.username && jsEqStr p cfg.password) = true
    · left; simp [postAdmin, hc]
    · right; simp [postAdmin, hc]
  · intro users e pw h
    simp [authLogin, h]
  · intro users e pw h
    rw [authLogin, if_pos h]
    cases hfind : users.find? (fun x => jsEqStr e x.email) with
    | none => simp [hfind]
    | some u =>
      by_cases hpw : jsEqStr pw u.password = true
      · simp [hpw]
      · simp [hpw]
  · intro users e pw u h hfind hpw
    simp [authLogin, h, hfind, hpw]
  · intro users e pw h
    rw [authLogin, if_pos h]
    cases hfind : users.find? (fun x => jsEqStr e x.email) with
    | none => right; rfl
    | some u =>
      by_cases hpw : jsEqStr pw u.password = true
      · left; simp [hpw]
      · right; simp [hpw]

/-- A demonstration stored user with plaintext password "secret". -/
def demoUser : StoredUser :=
  { id := "eeeeeeeeeeeeeeeeeeeeeeee", name := "Dana", photo := "p.png",
    phone := "018", email := "dana@x.y", password := "secret",
    role := "user", createdAt := 2 }

/-- C9, witness: the admin endpoint accepts exactly the configured pair and
rejects a wrong password with 401; login succeeds with the stored plaintext
password and is rejected with 400 when the email is missing. -/
theorem c9_auth_witness :
    postAdmin { username := "admin", password := "pw1" }
      (JsVal.str "admin") (JsVal.str "pw1") = (200, true)
  ∧ (postAdmin { username := "admin", password := "pw1" }
      (JsVal.str "admin") (JsVal.str "wrong") = (200, true)
      ∨ postAdmin { username := "admin", password := "pw1" }
          (JsVal.str "admin") (JsVal.str "wrong") = (401, false))
  ∧ authLogin [demoUser] (JsVal.str "dana@x.y") (JsVal.str "secret")
      = (200, some (profileOf demoUser))
  ∧ authLogin [demoUser] JsVal.undef (JsVal.str "secret") = (400, none) :=
  ⟨(c9_auth_amended.1 { username := "admin", password := "pw1" }
      (JsVal.str "admin") (JsVal.str "pw1")).2 ⟨rfl, rfl⟩,
   c9_auth_amended.2.1 { username := "admin", password := "pw1" }
     (JsVal.str "admin") (JsVal.str "wrong"),
   c9_auth_amended.2.2.2.2.1 [demoUser] (JsVal.str "dana@x.y")
     (JsVal.str "secret") demoUser (by decide) (by decide) (by decide),
   c9_auth_amended.2.2.1 [demoUser] JsVal.undef (JsVal.str "secret")
     (by decide)⟩

/-- C10: `GET /api/auth/check` consumes nothing from the request — the
handler is a function of the store alone: it answers 401 exactly on an empty
user collection and otherwise 200 with the id, name, email, photo and role of
the first stored user, identically for every caller. -/
theorem c10_auth_check_spec :
    authCheck [] = (401, none)
  ∧ (∀ (u : StoredUser) (rest : List StoredUser),
      authCheck (u :: rest) = (200, some (profileOf u)))
  ∧ (∀ users : List StoredUser,
      (authCheck users).1 = 401 ↔ users = []) := by
  refine ⟨rfl, fun u rest => rfl, ?_⟩
  intro users
  cases users with
  | nil => simp [authCheck]
  | cons u rest => simp [authCheck]

end FamBackend
